import Mathlib

/-!
The ctips tray notification client (`src/mainwindow.cpp`).

A shallow embedding of `MainWindow` and of its slots, followed by the
properties of the heartbeat, of the message handler, of the blink indicator
and of the notification log.

Conventions of the embedding

* A `QDateTime` is an `Int`: milliseconds since the epoch, the resolution of
  `QDateTime`.  `addSecs(30)` adds `30000`.  A slot that reads
  `QDateTime::currentDateTime()` receives that reading as its argument `now`.
* Calls that leave the object (socket calls, the bell, the tray balloon,
  `raise()`) are appended to the field `effects`, oldest first.
* `qDebug()` output is not part of the state.
* A signal of the socket or of a timer reaches its slot as an `Event` of its
  own; a slot body is the state change of that body alone.
* What the slots obtain from collaborators outside `mainwindow.cpp`
  (`GameHelper`, `QSettings`, `QJsonDocument::fromJson`,
  `QDateTime::toString`) is collected in `Env`; every theorem about a slot
  holds for every `Env`.
-/

namespace CTips

/-! ## Qt JSON values -/

/-- The values of `QJsonValue`; `undefined` is what `QJsonObject::value`
returns for a key that is absent.  A number keeps its lexeme, no slot reads
it. -/
inductive QJsonValue where
  | null : QJsonValue
  | bool (b : Bool) : QJsonValue
  | double (lexeme : String) : QJsonValue
  | string (s : String) : QJsonValue
  | array (a : List QJsonValue) : QJsonValue
  | object (o : List (String × QJsonValue)) : QJsonValue
  | undefined : QJsonValue

/-- A `QJsonObject`: its members, looked up by key. -/
abbrev QJsonObject := List (String × QJsonValue)

/-- The member stored under `key`, when there is one. -/
def QJsonObject.find (o : QJsonObject) (key : String) : Option QJsonValue :=
  match o with
  | [] => none
  | (k, v) :: rest => if k = key then some v else QJsonObject.find rest key

/-- Qt `QJsonObject::contains(key)`. -/
def QJsonObject.contains (o : QJsonObject) (key : String) : Bool :=
  (QJsonObject.find o key).isSome

/-- Qt `QJsonObject::value(key)`: the member, or `undefined` when absent. -/
def QJsonObject.value (o : QJsonObject) (key : String) : QJsonValue :=
  match QJsonObject.find o key with
  | some v => v
  | none => QJsonValue.undefined

/-- Qt `QJsonValue::toObject()`: the object, or an empty object for every other
kind of value. -/
def QJsonValue.toObject : QJsonValue → QJsonObject
  | QJsonValue.object o => o
  | _ => []

/-- Qt `QJsonValue::toString()`: the string, or a null `QString` for every other
kind of value. -/
def QJsonValue.toString : QJsonValue → String
  | QJsonValue.string s => s
  | _ => ""

/-- A `QJsonDocument`: null, or holding an array or an object. -/
inductive QJsonDocument where
  | null : QJsonDocument
  | ofArray (a : List QJsonValue) : QJsonDocument
  | ofObject (o : QJsonObject) : QJsonDocument

/-- Qt `QJsonDocument::isNull()`. -/
def QJsonDocument.isNull : QJsonDocument → Bool
  | QJsonDocument.null => true
  | _ => false

/-- Qt `QJsonDocument::isEmpty()`: no data, or a root with no entries. -/
def QJsonDocument.isEmpty : QJsonDocument → Bool
  | QJsonDocument.null => true
  | QJsonDocument.ofArray a => a.isEmpty
  | QJsonDocument.ofObject o => o.isEmpty

/-- Qt `QJsonDocument::object()`: the root object, or an empty object when the
document holds an array or nothing. -/
def QJsonDocument.object : QJsonDocument → QJsonObject
  | QJsonDocument.ofObject o => o
  | _ => []

/-- Qt `QJsonParseError::ParseError`. -/
inductive ParseError where
  | NoError
  | UnterminatedObject
  | MissingNameSeparator
  | UnterminatedArray
  | MissingValueSeparator
  | IllegalValue
  | TerminationByNumber
  | IllegalNumber
  | IllegalEscapeSequence
  | IllegalUTF8String
  | UnterminatedString
  | MissingObject
  | DeepNesting
  | DocumentTooLarge
  | GarbageAtEnd
  deriving DecidableEq, Repr

/-- What `QJsonDocument::fromJson(bytes, &jsonErr)` hands back: the error code
written to `jsonErr` and the returned document. -/
structure JsonResult where
  error : ParseError
  doc : QJsonDocument

/-! ## Widgets, timers and the window state -/

/-- A `QDateTime`, in milliseconds since the epoch. -/
abbrev QDateTime := Int

/-- Qt `QDateTime::addSecs(s)`. -/
def QDateTime.addSecs (t : QDateTime) (s : Int) : QDateTime := t + s * 1000

/-- The two tray icons loaded by the constructor. -/
inductive Icon where
  | appRedIcon
  | appBlueIcon
  deriving DecidableEq, Repr

/-- The two pixmaps of the connection light. -/
inductive Pixmap where
  | stateOnPixmap
  | stateOffPixmap
  deriving DecidableEq, Repr

/-- A `QTimer`: its interval in milliseconds and whether it is running. -/
structure QTimer where
  interval : Nat
  active : Bool
  deriving DecidableEq, Repr

/-- Qt `QTimer::setInterval`. -/
def QTimer.setInterval (t : QTimer) (msec : Nat) : QTimer := { t with interval := msec }

/-- Qt `QTimer::start()`. -/
def QTimer.start (t : QTimer) : QTimer := { t with active := true }

/-- Qt `QTimer::stop()`. -/
def QTimer.stop (t : QTimer) : QTimer := { t with active := false }

/-- A `QListWidgetItem` with the attributes `updateMessage` sets. -/
structure QListWidgetItem where
  text : String
  sizeHint : Nat × Nat
  toolTip : String
  font : String × Nat
  deriving DecidableEq, Repr

/-- The `QListWidget` of the log: its rows, top row first, and the current
row (`none` when there is no current item). -/
structure QListWidget where
  items : List QListWidgetItem
  currentRow : Option Nat
  deriving DecidableEq, Repr

/-- Qt `QListWidget::count()`. -/
def QListWidget.count (l : QListWidget) : Nat := l.items.length

/-- Qt `QListWidget::currentItem()`: null when no row is current. -/
def QListWidget.currentItem (l : QListWidget) : Option QListWidgetItem :=
  match l.currentRow with
  | none => none
  | some r => l.items.get? r

/-- Qt `QListWidget::insertItem(row, item)`: the item becomes row `row` (at most
`count()`); the current item, if any, stays the same item. -/
def QListWidget.insertItem (l : QListWidget) (row : Nat) (item : QListWidgetItem) :
    QListWidget :=
  { items := l.items.insertIdx (min row l.items.length) item
    currentRow := l.currentRow.map fun r => if min row l.items.length ≤ r then r + 1 else r }

/-- Qt `QListWidget::setCurrentRow(row)`. -/
def QListWidget.setCurrentRow (l : QListWidget) (row : Nat) : QListWidget :=
  { l with currentRow := if row < l.items.length then some row else none }

/-- What `delete item` does to the list for the item at `row`: the item's
destructor takes it out of the widget.  When the removed row was current, the
view makes the following row current, else the preceding one, else none. -/
def QListWidget.deleteItem (l : QListWidget) (row : Nat) : QListWidget :=
  { items := l.items.eraseIdx row
    currentRow :=
      match l.currentRow with
      | none => none
      | some r =>
        if r < row then some r
        else if row < r then some (r - 1)
        else if l.items.length ≤ 1 then none
        else if row + 1 < l.items.length then some row
        else some (row - 1) }

/-- Qt `QListWidget::clear()`. -/
def QListWidget.clear (_l : QListWidget) : QListWidget :=
  { items := [], currentRow := none }

/-- The `QSystemTrayIcon`: the icon shown and its tool tip. -/
structure QSystemTrayIcon where
  icon : Icon
  toolTip : String
  deriving DecidableEq, Repr

/-- The `QWebSocket` created by `connectServer`, with its origin. -/
structure QWebSocket where
  origin : String
  deriving DecidableEq, Repr

/-- Calls that leave the window object. -/
inductive Effect where
  | socketOpen (url : String)
  | socketClose
  | socketPing (payload : String)
  | bellPlay
  | showMessage (title : String) (message : String) (icon : Icon) (msecs : Nat)
  | raise
  deriving DecidableEq, Repr

/-- The answer of the confirmation box of `clearMenuSelected`. -/
inductive StandardButton where
  | Yes
  | No
  deriving DecidableEq, Repr

/-- The members of `MainWindow` that the slots read or write.  `webUrl` is the
string the `QUrl` was built from; `infoLabel` and `states` are the text and the
pixmap of the two labels of the form; `visible` and `position` are the
window's own visibility and position. -/
structure MainWindow where
  gotAppIconPosition : Bool
  connectedService : Bool
  trayIconSwitched : Bool
  webSocketLastPongTime : QDateTime
  webUrl : String
  webSocket : Option QWebSocket
  webSocketPingTimer : QTimer
  messageTipTimer : QTimer
  listWidget : QListWidget
  infoLabel : String
  states : Pixmap
  trayIcon : QSystemTrayIcon
  visible : Bool
  position : Int × Int
  effects : List Effect
  deriving DecidableEq, Repr

/-- What the slots obtain from outside `mainwindow.cpp`. -/
structure Env where
  /-- Result of `GameHelper::getInstance().getMacAddress()`. -/
  getMacAddress : String
  /-- Result of `settings->value("url").toString()`. -/
  settingsUrl : String
  /-- Result of `QJsonDocument::fromJson(message.toUtf8(), &jsonErr)`. -/
  fromJson : String → JsonResult
  /-- Result of `QDateTime::toString(format)` on a time. -/
  toString : QDateTime → String → String

/-! ## The slots of `MainWindow` -/

namespace MainWindow

/-- Source `MainWindow::resetTrayIcon` (lines 346-354). -/
def resetTrayIcon (w : MainWindow) : MainWindow :=
  { w with
    trayIconSwitched := false
    trayIcon := { icon := Icon.appBlueIcon, toolTip := "" }
    messageTipTimer := w.messageTipTimer.stop }

/-- Source `MainWindow::messageClicked` (lines 93-109).  `screens` is
`qApp->screens().size()`, `trayX` is `trayIcon->geometry().x()` and
`primaryWidth` is `qApp->primaryScreen()->size().width()`. -/
def messageClicked (w : MainWindow) (screens : Nat) (trayX primaryWidth : Int) :
    MainWindow :=
  let w1 := resetTrayIcon w
  let w2 :=
    if w1.gotAppIconPosition = false then
      if screens = 1 then { w1 with position := (trayX, 22) }
      else { w1 with position := (primaryWidth - 550, 22) }
    else w1
  { w2 with visible := true, effects := w2.effects ++ [Effect.raise] }

/-- Source `MainWindow::iconActivated` (lines 111-137).  `cursorPoint` is
`QCursor::pos()` and `isActiveWindow` is `this->isActiveWindow()`. -/
def iconActivated (w : MainWindow) (cursorPoint : Int × Int) (isActiveWindow : Bool) :
    MainWindow :=
  let w1 := resetTrayIcon w
  if w1.gotAppIconPosition && w1.visible && isActiveWindow == false then
    { w1 with
      position := (cursorPoint.1 - 16, cursorPoint.2 - 11)
      effects := w1.effects ++ [Effect.raise] }
  else if w1.visible then
    { w1 with visible := false }
  else
    { w1 with
      gotAppIconPosition := true
      position := (cursorPoint.1 - 16, cursorPoint.2 - 11)
      visible := true
      effects := w1.effects ++ [Effect.raise] }

/-- Source `MainWindow::updateMessage` (lines 139-161). -/
def updateMessage (env : Env) (w : MainWindow) (message : String) (now : QDateTime) :
    MainWindow :=
  let item : QListWidgetItem :=
    { text := message, sizeHint := (470, 25), toolTip := message, font := ("Monaco", 14) }
  { w with
    listWidget := (w.listWidget.insertItem 0 item).setCurrentRow 0
    infoLabel := env.toString now "截止:yyyy-MM-dd hh:mm:ss"
    trayIcon := { w.trayIcon with toolTip := message }
    messageTipTimer := w.messageTipTimer.start
    effects := w.effects ++
      [Effect.bellPlay,
       Effect.showMessage (env.toString now "yyyy-MM-dd hh:mm:ss") message
         Icon.appBlueIcon 300000] }

/-- Source `MainWindow::deleteMenuSelected` (lines 192-205).
`removeItemWidget` only detaches a widget set on the item, and none is set. -/
def deleteMenuSelected (w : MainWindow) : MainWindow :=
  match w.listWidget.currentRow, w.listWidget.currentItem with
  | some row, some _ =>
    let lw := w.listWidget.deleteItem row
    if lw.count = 0 then { w with listWidget := lw, infoLabel := "" }
    else { w with listWidget := lw }
  | _, _ => w

/-- Source `MainWindow::clearMenuSelected` (lines 207-226); `result` is the
button the warning box returns. -/
def clearMenuSelected (w : MainWindow) (result : StandardButton) : MainWindow :=
  if result ≠ StandardButton.Yes then w
  else
    match w.listWidget.currentItem with
    | none => w
    | some _ => { w with listWidget := w.listWidget.clear, infoLabel := "" }

/-- Source `MainWindow::connectServer` (lines 228-257). -/
def connectServer (env : Env) (w : MainWindow) : MainWindow :=
  let macAddress := env.getMacAddress
  if macAddress.length = 0 then w
  else
    let origin := "rumbladeApp:" ++ macAddress
    let url := env.settingsUrl ++ "&uuid=ctips:" ++ macAddress
    { w with
      webUrl := url
      webSocket := some { origin := origin }
      effects := w.effects ++ [Effect.socketOpen url]
      webSocketPingTimer := (w.webSocketPingTimer.setInterval 15000).start }

/-- Source `MainWindow::onWebSocketConnected` (lines 259-267). -/
def onWebSocketConnected (w : MainWindow) (now : QDateTime) : MainWindow :=
  { w with
    states := Pixmap.stateOnPixmap
    connectedService := true
    webSocketLastPongTime := now }

/-- Source `MainWindow::onWebSocketDisconnected` (lines 269-276). -/
def onWebSocketDisconnected (w : MainWindow) : MainWindow :=
  { w with states := Pixmap.stateOffPixmap, connectedService := false }

/-- Source `MainWindow::onWebSocketMessageReceived` (lines 278-297). -/
def onWebSocketMessageReceived (env : Env) (w : MainWindow) (message : String)
    (now : QDateTime) : MainWindow :=
  let r := env.fromJson message
  if r.error ≠ ParseError.NoError || r.doc.isEmpty || r.doc.isNull then w
  else
    let responseObj := r.doc.object
    if responseObj.contains "noticeData" then
      let noticeData := (responseObj.value "noticeData").toObject
      updateMessage env w (noticeData.value "message").toString now
    else w

/-- Source `MainWindow::onWebSocketPong` (lines 299-304). -/
def onWebSocketPong (w : MainWindow) (_elapsedTime : Nat) (_payload : String)
    (now : QDateTime) : MainWindow :=
  { w with webSocketLastPongTime := now }

/-- Source `MainWindow::onWebSocketClose` (lines 306-310). -/
def onWebSocketClose (w : MainWindow) : MainWindow :=
  { w with effects := w.effects ++ [Effect.socketClose] }

/-- Source `MainWindow::onWebSocketError` (lines 312-315): debug output only. -/
def onWebSocketError (w : MainWindow) : MainWindow := w

/-- Source `MainWindow::onWebSocketStateChanged` (lines 317-320): debug output
only. -/
def onWebSocketStateChanged (w : MainWindow) : MainWindow := w

/-- Source `MainWindow::onWebSocketTimerTimeout` (lines 322-333). -/
def onWebSocketTimerTimeout (w : MainWindow) (now : QDateTime) : MainWindow :=
  if w.connectedService && decide (w.webSocketLastPongTime.addSecs 30 > now) then
    { w with effects := w.effects ++ [Effect.socketPing "PING"] }
  else
    { w with effects := w.effects ++ [Effect.socketClose, Effect.socketOpen w.webUrl] }

/-- Source `MainWindow::onMessageTipTimerTimeout` (lines 335-344). -/
def onMessageTipTimerTimeout (w : MainWindow) : MainWindow :=
  if w.trayIconSwitched = false then
    { w with trayIconSwitched := true, trayIcon := { w.trayIcon with icon := Icon.appRedIcon } }
  else
    { w with trayIconSwitched := false, trayIcon := { w.trayIcon with icon := Icon.appBlueIcon } }

end MainWindow

/-! ## The event loop

All slots run on the GUI thread, one at a time.  An `Event` is one delivery
by the event loop, with the readings of the outside world the slot takes.
The button `quitBtn` ends the process and is not an event. -/

/-- One delivery by the event loop. -/
inductive Event where
  /-- Signal `QWebSocket::connected`. -/
  | connected (now : QDateTime)
  /-- Signal `QWebSocket::disconnected`. -/
  | disconnected
  /-- Signal `QWebSocket::textMessageReceived`. -/
  | textMessageReceived (message : String) (now : QDateTime)
  /-- Signal `QWebSocket::pong`. -/
  | pong (elapsedTime : Nat) (payload : String) (now : QDateTime)
  /-- Signal `QWebSocket::error`. -/
  | socketError
  /-- Signal `QWebSocket::stateChanged`. -/
  | stateChanged
  /-- Signal `timeout` of `webSocketPingTimer`. -/
  | pingTimerTimeout (now : QDateTime)
  /-- Signal `timeout` of `messageTipTimer`. -/
  | tipTimerTimeout
  /-- A `MessageEvent` posted to the window, handled by `MainWindow::event`. -/
  | messageEvent (message : String) (now : QDateTime)
  /-- Signal `QSystemTrayIcon::messageClicked`. -/
  | messageClicked (screens : Nat) (trayX : Int) (primaryWidth : Int)
  /-- Signal `QSystemTrayIcon::activated`. -/
  | iconActivated (cursorPoint : Int × Int) (isActiveWindow : Bool)
  /-- The entry "delete" of the context menu. -/
  | deleteMenu
  /-- The entry "clear" of the context menu, with the answer of the box. -/
  | clearMenu (result : StandardButton)
  /-- The button `minBtn`. -/
  | minBtnClicked
  /-- The user makes `row` the current row of the list. -/
  | rowSelected (row : Nat)

/-- The slot (or lambda) that an event runs. -/
def MainWindow.handle (env : Env) (w : MainWindow) : Event → MainWindow
  | Event.connected now => w.onWebSocketConnected now
  | Event.disconnected => w.onWebSocketDisconnected
  | Event.textMessageReceived message now => w.onWebSocketMessageReceived env message now
  | Event.pong elapsedTime payload now => w.onWebSocketPong elapsedTime payload now
  | Event.socketError => w.onWebSocketError
  | Event.stateChanged => w.onWebSocketStateChanged
  | Event.pingTimerTimeout now => w.onWebSocketTimerTimeout now
  | Event.tipTimerTimeout => w.onMessageTipTimerTimeout
  | Event.messageEvent message now => w.updateMessage env message now
  | Event.messageClicked screens trayX primaryWidth =>
    w.messageClicked screens trayX primaryWidth
  | Event.iconActivated cursorPoint isActiveWindow =>
    w.iconActivated cursorPoint isActiveWindow
  | Event.deleteMenu => w.deleteMenuSelected
  | Event.clearMenu result => w.clearMenuSelected result
  | Event.minBtnClicked => { w with visible := false }
  | Event.rowSelected row => { w with listWidget := w.listWidget.setCurrentRow row }

/-- Whether the event loop can deliver the event in state `w`: a timer emits
`timeout` only while it is running.  Every other event is accepted in every
state, which only enlarges the set of runs. -/
def MainWindow.enabled (w : MainWindow) : Event → Bool
  | Event.pingTimerTimeout _ => w.webSocketPingTimer.active
  | Event.tipTimerTimeout => w.messageTipTimer.active
  | _ => true

/-- The state after the events `es`, delivered in order from `w`; `none` when
one of them cannot be delivered at its turn. -/
def MainWindow.run (env : Env) (w : MainWindow) : List Event → Option MainWindow
  | [] => some w
  | e :: es => if w.enabled e then MainWindow.run env (w.handle env e) es else none

/-- Whether the payload passes the two tests of `onWebSocketMessageReceived`
(lines 284-286 and 292), that is, whether the slot calls `updateMessage`. -/
def carriesNotice (env : Env) (message : String) : Bool :=
  let r := env.fromJson message
  !(r.error ≠ ParseError.NoError || r.doc.isEmpty || r.doc.isNull)
    && r.doc.object.contains "noticeData"

/-- Whether the event makes a slot call `updateMessage`. -/
def Event.notifies (env : Env) : Event → Bool
  | Event.messageEvent _ _ => true
  | Event.textMessageReceived message _ => carriesNotice env message
  | _ => false

/-- Whether the event is the blink tick. -/
def Event.isBlinkTick : Event → Bool
  | Event.tipTimerTimeout => true
  | _ => false

/-- Whether the event is one of the three socket signals that write
`connectedService` or `webSocketLastPongTime`. -/
def Event.isLinkSignal : Event → Bool
  | Event.connected _ => true
  | Event.disconnected => true
  | Event.pong _ _ _ => true
  | _ => false

/-! ## Operations on the log -/

/-- The user-visible operations on the log. -/
inductive LogOp where
  /-- A notification arrives: `updateMessage(message)`. -/
  | receive (message : String) (now : QDateTime)
  /-- The entry "delete" of the context menu: `deleteMenuSelected()`. -/
  | deleteCurrent
  /-- The entry "clear", confirmed with Yes: `clearMenuSelected()`. -/
  | clear
  /-- The user makes `row` the current row. -/
  | select (row : Nat)

/-- The slot an operation runs. -/
def LogOp.apply (env : Env) (w : MainWindow) : LogOp → MainWindow
  | LogOp.receive message now => w.updateMessage env message now
  | LogOp.deleteCurrent => w.deleteMenuSelected
  | LogOp.clear => w.clearMenuSelected StandardButton.Yes
  | LogOp.select row => { w with listWidget := w.listWidget.setCurrentRow row }

/-- The state after the operations `ops`, in order. -/
def LogOp.applyAll (env : Env) (w : MainWindow) (ops : List LogOp) : MainWindow :=
  ops.foldl (LogOp.apply env) w

/-- The texts received by `ops`, oldest first. -/
def LogOp.received : List LogOp → List String
  | [] => []
  | LogOp.receive message _ :: ops => message :: LogOp.received ops
  | _ :: ops => LogOp.received ops

/-- The texts of the log, top row first. -/
def MainWindow.logTexts (w : MainWindow) : List String :=
  w.listWidget.items.map QListWidgetItem.text

/-! ## A reference JSON reader

The theorems about `onWebSocketMessageReceived` hold for every
`Env.fromJson`.  To run the slot on concrete payloads, `Json.fromJson` reads
the JSON grammar of RFC 8259 over the code points of the payload, and accepts
an array or an object at the top level, as `QJsonDocument::fromJson` does. -/

namespace Json

/-- The code points of a payload. -/
def codes (s : String) : List Nat := s.toList.map Char.toNat

/-- The string with the given code points. -/
def text (cs : List Nat) : String := String.mk (cs.map Char.ofNat)

/-- Space, tab, line feed, carriage return. -/
def isWs (c : Nat) : Bool := c = 32 || c = 9 || c = 10 || c = 13

/-- A decimal digit. -/
def isDigit (c : Nat) : Bool := 48 ≤ c && c ≤ 57

/-- Drops leading white space. -/
def skipWs : List Nat → List Nat
  | [] => []
  | c :: cs => if isWs c then skipWs cs else c :: cs

/-- The value of a hexadecimal digit. -/
def hexDigit (c : Nat) : Option Nat :=
  if 48 ≤ c ∧ c ≤ 57 then some (c - 48)
  else if 97 ≤ c ∧ c ≤ 102 then some (c - 87)
  else if 65 ≤ c ∧ c ≤ 70 then some (c - 55)
  else none

/-- Reads four hexadecimal digits. -/
def hex4 : List Nat → Option (Nat × List Nat)
  | a :: b :: c :: d :: rest =>
    match hexDigit a, hexDigit b, hexDigit c, hexDigit d with
    | some x, some y, some z, some t => some (((x * 16 + y) * 16 + z) * 16 + t, rest)
    | _, _, _, _ => none
  | _ => none

/-- Reads the remainder of a string, the opening quote already consumed;
`acc` holds the code points read so far, last one first. -/
def readString : Nat → List Nat → List Nat → Except ParseError (String × List Nat)
  | 0, _, _ => Except.error ParseError.UnterminatedString
  | _ + 1, [], _ => Except.error ParseError.UnterminatedString
  | fuel + 1, c :: cs, acc =>
    if c = 34 then Except.ok (text acc.reverse, cs)
    else if c = 92 then
      match cs with
      | [] => Except.error ParseError.UnterminatedString
      | e :: rest =>
        if e = 34 ∨ e = 92 ∨ e = 47 then readString fuel rest (e :: acc)
        else if e = 98 then readString fuel rest (8 :: acc)
        else if e = 102 then readString fuel rest (12 :: acc)
        else if e = 110 then readString fuel rest (10 :: acc)
        else if e = 114 then readString fuel rest (13 :: acc)
        else if e = 116 then readString fuel rest (9 :: acc)
        else if e = 117 then
          match hex4 rest with
          | none => Except.error ParseError.IllegalEscapeSequence
          | some (hi, rest2) =>
            if 55296 ≤ hi ∧ hi ≤ 56319 then
              match rest2 with
              | 92 :: 117 :: rest3 =>
                match hex4 rest3 with
                | some (lo, rest4) =>
                  if 56320 ≤ lo ∧ lo ≤ 57343 then
                    readString fuel rest4
                      ((65536 + (hi - 55296) * 1024 + (lo - 56320)) :: acc)
                  else Except.error ParseError.IllegalEscapeSequence
                | none => Except.error ParseError.IllegalEscapeSequence
              | _ => Except.error ParseError.IllegalEscapeSequence
            else if 56320 ≤ hi ∧ hi ≤ 57343 then
              Except.error ParseError.IllegalEscapeSequence
            else readString fuel rest2 (hi :: acc)
        else Except.error ParseError.IllegalEscapeSequence
    else if c < 32 then Except.error ParseError.IllegalValue
    else readString fuel cs (c :: acc)

/-- Reads the word `word` at the head of the input. -/
def expectWord : List Nat → List Nat → Option (List Nat)
  | [], cs => some cs
  | _ :: _, [] => none
  | p :: ps, c :: cs => if p = c then expectWord ps cs else none

/-- Reads a number: sign, integer part, fraction, exponent. -/
def readNumber (cs : List Nat) : Except ParseError (String × List Nat) :=
  let (sign, r0) :=
    match cs with
    | 45 :: r => ([45], r)
    | _ => ([], cs)
  let (ints, r1) := r0.span isDigit
  if ints = [] ∨ (ints.head? = some 48 ∧ 1 < ints.length) then
    Except.error ParseError.IllegalNumber
  else
    let fraction : Except ParseError (List Nat × List Nat) :=
      match r1 with
      | 46 :: r =>
        let (fs, r2) := r.span isDigit
        if fs = [] then Except.error ParseError.IllegalNumber else Except.ok (46 :: fs, r2)
      | _ => Except.ok ([], r1)
    match fraction with
    | Except.error e => Except.error e
    | Except.ok (fr, r2) =>
      let exponent : Except ParseError (List Nat × List Nat) :=
        match r2 with
        | e :: r =>
          if e = 101 ∨ e = 69 then
            let (sg, r3) :=
              match r with
              | 43 :: r4 => ([43], r4)
              | 45 :: r4 => ([45], r4)
              | _ => ([], r)
            let (es, r5) := r3.span isDigit
            if es = [] then Except.error ParseError.IllegalNumber
            else Except.ok (e :: sg ++ es, r5)
          else Except.ok ([], r2)
        | [] => Except.ok ([], r2)
      match exponent with
      | Except.error e => Except.error e
      | Except.ok (ex, r6) => Except.ok (text (sign ++ ints ++ fr ++ ex), r6)

mutual
/-- Reads one value. -/
def readValue : Nat → List Nat → Except ParseError (QJsonValue × List Nat)
  | 0, _ => Except.error ParseError.DeepNesting
  | fuel + 1, cs =>
    match skipWs cs with
    | [] => Except.error ParseError.IllegalValue
    | c :: rest =>
      if c = 123 then
        match skipWs rest with
        | 125 :: rest2 => Except.ok (QJsonValue.object [], rest2)
        | _ =>
          match readMembers fuel rest [] with
          | Except.ok (o, rest2) => Except.ok (QJsonValue.object o, rest2)
          | Except.error e => Except.error e
      else if c = 91 then
        match skipWs rest with
        | 93 :: rest2 => Except.ok (QJsonValue.array [], rest2)
        | _ =>
          match readElements fuel rest [] with
          | Except.ok (a, rest2) => Except.ok (QJsonValue.array a, rest2)
          | Except.error e => Except.error e
      else if c = 34 then
        match readString rest.length.succ rest [] with
        | Except.ok (str, rest2) => Except.ok (QJsonValue.string str, rest2)
        | Except.error e => Except.error e
      else if c = 116 then
        match expectWord [114, 117, 101] rest with
        | some rest2 => Except.ok (QJsonValue.bool true, rest2)
        | none => Except.error ParseError.IllegalValue
      else if c = 102 then
        match expectWord [97, 108, 115, 101] rest with
        | some rest2 => Except.ok (QJsonValue.bool false, rest2)
        | none => Except.error ParseError.IllegalValue
      else if c = 110 then
        match expectWord [117, 108, 108] rest with
        | some rest2 => Except.ok (QJsonValue.null, rest2)
        | none => Except.error ParseError.IllegalValue
      else
        match readNumber (c :: rest) with
        | Except.ok (lexeme, rest2) => Except.ok (QJsonValue.double lexeme, rest2)
        | Except.error e => Except.error e
/-- Reads the members of an object up to its closing brace.  A member read
later stands before the ones read earlier, so that of two members with the
same key the later one is found. -/
def readMembers : Nat → List Nat → QJsonObject → Except ParseError (QJsonObject × List Nat)
  | 0, _, _ => Except.error ParseError.DeepNesting
  | fuel + 1, cs, acc =>
    match skipWs cs with
    | 34 :: rest =>
      match readString rest.length.succ rest [] with
      | Except.error e => Except.error e
      | Except.ok (key, rest2) =>
        match skipWs rest2 with
        | 58 :: rest3 =>
          match readValue fuel rest3 with
          | Except.error e => Except.error e
          | Except.ok (v, rest4) =>
            match skipWs rest4 with
            | 44 :: rest5 => readMembers fuel rest5 ((key, v) :: acc)
            | 125 :: rest5 => Except.ok ((key, v) :: acc, rest5)
            | _ => Except.error ParseError.UnterminatedObject
        | _ => Except.error ParseError.MissingNameSeparator
    | _ => Except.error ParseError.UnterminatedObject
/-- Reads the elements of an array up to its closing bracket; `acc` holds the
elements read so far, last one first. -/
def readElements : Nat → List Nat → List QJsonValue →
    Except ParseError (List QJsonValue × List Nat)
  | 0, _, _ => Except.error ParseError.DeepNesting
  | fuel + 1, cs, acc =>
    match readValue fuel cs with
    | Except.error e => Except.error e
    | Except.ok (v, rest) =>
      match skipWs rest with
      | 44 :: rest2 => readElements fuel rest2 (v :: acc)
      | 93 :: rest2 => Except.ok ((v :: acc).reverse, rest2)
      | _ => Except.error ParseError.UnterminatedArray
end

/-- Reads a whole payload: one array or object, and nothing after it. -/
def fromJson (message : String) : JsonResult :=
  let cs := codes message
  match readValue cs.length.succ cs with
  | Except.error e => { error := e, doc := QJsonDocument.null }
  | Except.ok (v, rest) =>
    match skipWs rest with
    | [] =>
      match v with
      | QJsonValue.object o => { error := ParseError.NoError, doc := QJsonDocument.ofObject o }
      | QJsonValue.array a => { error := ParseError.NoError, doc := QJsonDocument.ofArray a }
      | _ => { error := ParseError.IllegalValue, doc := QJsonDocument.null }
    | _ => { error := ParseError.GarbageAtEnd, doc := QJsonDocument.null }

end Json

/-! ## Concrete inputs -/

/-- An environment for concrete runs: a machine address, a service URL, the
reference JSON reader, and a clock display that shows the milliseconds. -/
def exampleEnv : Env :=
  { getMacAddress := "00:11:22:33:44:55"
    settingsUrl := "ws://notice.example/ws?app=1"
    fromJson := Json.fromJson
    toString := fun t format => format ++ "@" ++ toString t }

/-- The environment of a machine on which no address is found. -/
def noAddressEnv : Env := { exampleEnv with getMacAddress := "" }

/-- A window as the constructor leaves it: not connected, icon not switched,
light off, empty log, timers stopped. -/
def exampleWindow : MainWindow :=
  { gotAppIconPosition := false
    connectedService := false
    trayIconSwitched := false
    webSocketLastPongTime := 0
    webUrl := ""
    webSocket := none
    webSocketPingTimer := { interval := 0, active := false }
    messageTipTimer := { interval := 500, active := false }
    listWidget := { items := [], currentRow := none }
    infoLabel := ""
    states := Pixmap.stateOffPixmap
    trayIcon := { icon := Icon.appBlueIcon, toolTip := "" }
    visible := false
    position := (0, 0)
    effects := [] }

/-- The payload of the scenario of the specification:
the object with member noticeData, itself an object with member message. -/
def noticePayload : String :=
  "\x7b\"noticeData\":\x7b\"message\":\"server update\"\x7d\x7d"

/-- The example window after `connectServer` and after the socket reported
`connected` at time 0. -/
def connectedWindow : MainWindow :=
  (exampleWindow.connectServer exampleEnv).onWebSocketConnected 0

/-- The example window after one notification, "first", received at 1 s. -/
def loggedWindow : MainWindow :=
  exampleWindow.updateMessage exampleEnv "first" 1000

/-- The alert indicator at rest: flag cleared, blue icon, blink timer
stopped. -/
def MainWindow.Quiescent (w : MainWindow) : Prop :=
  w.trayIconSwitched = false ∧ w.trayIcon.icon = Icon.appBlueIcon ∧
    w.messageTipTimer.active = false

/-! ## Frame lemmas -/

/-- A string of length zero is the empty string. -/
theorem eq_empty_of_length_zero (s : String) (h : s.length = 0) : s = "" := by
  cases s with
  | mk d =>
    have hd : d = [] := List.length_eq_zero.mp h
    subst hd
    rfl

/-- No slot reached from the event loop writes `webUrl`. -/
theorem MainWindow.handle_webUrl (env : Env) (w : MainWindow) (e : Event) :
    (w.handle env e).webUrl = w.webUrl := by
  cases e <;>
    simp only [MainWindow.handle, MainWindow.onWebSocketConnected,
      MainWindow.onWebSocketDisconnected, MainWindow.onWebSocketMessageReceived,
      MainWindow.onWebSocketPong, MainWindow.onWebSocketError,
      MainWindow.onWebSocketStateChanged, MainWindow.onWebSocketTimerTimeout,
      MainWindow.onMessageTipTimerTimeout, MainWindow.updateMessage,
      MainWindow.messageClicked, MainWindow.iconActivated, MainWindow.resetTrayIcon,
      MainWindow.deleteMenuSelected, MainWindow.clearMenuSelected] <;>
    (repeat' split) <;> rfl

/-- The URL is the same after every run. -/
theorem MainWindow.run_webUrl (env : Env) (es : List Event) :
    ∀ w w1 : MainWindow, MainWindow.run env w es = some w1 → w1.webUrl = w.webUrl := by
  induction es with
  | nil =>
    intro w w1 h
    simp only [MainWindow.run, Option.some.injEq] at h
    rw [← h]
  | cons e es ih =>
    intro w w1 h
    simp only [MainWindow.run] at h
    split at h
    · rw [ih _ _ h, MainWindow.handle_webUrl]
    · cases h

/-- Only the three link signals write `connectedService` or
`webSocketLastPongTime`. -/
theorem MainWindow.handle_link (env : Env) (w : MainWindow) (e : Event)
    (he : e.isLinkSignal = false) :
    (w.handle env e).connectedService = w.connectedService ∧
      (w.handle env e).webSocketLastPongTime = w.webSocketLastPongTime := by
  cases e <;> simp only [Event.isLinkSignal, Bool.true_eq_false] at he <;>
    simp only [MainWindow.handle, MainWindow.onWebSocketMessageReceived,
      MainWindow.onWebSocketError,
      MainWindow.onWebSocketStateChanged, MainWindow.onWebSocketTimerTimeout,
      MainWindow.onMessageTipTimerTimeout, MainWindow.updateMessage,
      MainWindow.messageClicked, MainWindow.iconActivated, MainWindow.resetTrayIcon,
      MainWindow.deleteMenuSelected, MainWindow.clearMenuSelected] <;>
    (repeat' split) <;> first | exact ⟨rfl, rfl⟩ | simp

/-- A run without link signals keeps `connectedService` and
`webSocketLastPongTime`. -/
theorem MainWindow.run_link (env : Env) (es : List Event) :
    ∀ w w1 : MainWindow, (∀ e ∈ es, e.isLinkSignal = false) →
      MainWindow.run env w es = some w1 →
      w1.connectedService = w.connectedService ∧
        w1.webSocketLastPongTime = w.webSocketLastPongTime := by
  induction es with
  | nil =>
    intro w w1 _ h
    simp only [MainWindow.run, Option.some.injEq] at h
    rw [← h]
    exact ⟨rfl, rfl⟩
  | cons e es ih =>
    intro w w1 hes h
    simp only [MainWindow.run] at h
    split at h
    · have h1 := ih _ _ (fun x hx => hes x (List.mem_cons_of_mem _ hx)) h
      have h2 := MainWindow.handle_link env w e (hes e (List.mem_cons_self _ _))
      exact ⟨h1.1.trans h2.1, h1.2.trans h2.2⟩
    · cases h

/-- A run of `es1 ++ es2` is a run of `es1` followed by a run of `es2`. -/
theorem MainWindow.run_append (env : Env) (es1 es2 : List Event) :
    ∀ w w2 : MainWindow, MainWindow.run env w (es1 ++ es2) = some w2 →
      ∃ w1, MainWindow.run env w es1 = some w1 ∧ MainWindow.run env w1 es2 = some w2 := by
  induction es1 with
  | nil =>
    intro w w2 h
    exact ⟨w, rfl, h⟩
  | cons e es ih =>
    intro w w2 h
    simp only [List.cons_append, MainWindow.run] at h
    split at h
    · rename_i hen
      obtain ⟨w1, h1, h2⟩ := ih _ _ h
      refine ⟨w1, ?_, h2⟩
      simp only [MainWindow.run, hen, if_true]
      exact h1
    · cases h

/-- No slot reached from the event loop writes the socket pointer or the
heartbeat timer. -/
theorem MainWindow.handle_socket (env : Env) (w : MainWindow) (e : Event) :
    (w.handle env e).webSocket = w.webSocket ∧
      (w.handle env e).webSocketPingTimer = w.webSocketPingTimer := by
  cases e <;>
    simp only [MainWindow.handle, MainWindow.onWebSocketConnected,
      MainWindow.onWebSocketDisconnected, MainWindow.onWebSocketMessageReceived,
      MainWindow.onWebSocketPong, MainWindow.onWebSocketError,
      MainWindow.onWebSocketStateChanged, MainWindow.onWebSocketTimerTimeout,
      MainWindow.onMessageTipTimerTimeout, MainWindow.updateMessage,
      MainWindow.messageClicked, MainWindow.iconActivated, MainWindow.resetTrayIcon,
      MainWindow.deleteMenuSelected, MainWindow.clearMenuSelected] <;>
    (repeat' split) <;> first | exact ⟨rfl, rfl⟩ | simp

/-- The heartbeat slot dereferences `webSocket`.  The heartbeat timer runs
only where `connectServer` has created the socket: if that holds at the start
of a run, the socket exists whenever the timer runs at its end. -/
theorem MainWindow.run_socket_present (env : Env) (es : List Event) :
    ∀ w w1 : MainWindow, MainWindow.run env w es = some w1 →
      (w.webSocketPingTimer.active = true → w.webSocket.isSome = true) →
      (w1.webSocketPingTimer.active = true → w1.webSocket.isSome = true) := by
  induction es with
  | nil =>
    intro w w1 h hw
    simp only [MainWindow.run, Option.some.injEq] at h
    rw [← h]
    exact hw
  | cons e es ih =>
    intro w w1 h hw
    simp only [MainWindow.run] at h
    split at h
    · apply ih _ _ h
      rw [(MainWindow.handle_socket env w e).1, (MainWindow.handle_socket env w e).2]
      exact hw
    · cases h

/-- After `connectServer` the socket exists whenever the heartbeat timer
runs, provided this held before. -/
theorem MainWindow.connectServer_socket_present (env : Env) (w : MainWindow)
    (hw : w.webSocketPingTimer.active = true → w.webSocket.isSome = true) :
    (w.connectServer env).webSocketPingTimer.active = true →
      (w.connectServer env).webSocket.isSome = true := by
  by_cases h0 : env.getMacAddress.length = 0
  · simpa [MainWindow.connectServer, h0] using hw
  · simp [MainWindow.connectServer, h0]

/-- The ping branch of the heartbeat slot. -/
theorem MainWindow.tick_ping (w : MainWindow) (now : QDateTime)
    (hc : w.connectedService = true) (ht : now < w.webSocketLastPongTime + 30000) :
    w.onWebSocketTimerTimeout now =
      { w with effects := w.effects ++ [Effect.socketPing "PING"] } := by
  simp [MainWindow.onWebSocketTimerTimeout, QDateTime.addSecs, hc, ht]

/-- The reconnect branch of the heartbeat slot. -/
theorem MainWindow.tick_reconnect (w : MainWindow) (now : QDateTime)
    (h : ¬ (w.connectedService = true ∧ now < w.webSocketLastPongTime + 30000)) :
    w.onWebSocketTimerTimeout now =
      { w with effects := w.effects ++ [Effect.socketClose, Effect.socketOpen w.webUrl] } := by
  have e : (30 : Int) * 1000 = 30000 := by norm_num
  simp only [MainWindow.onWebSocketTimerTimeout, QDateTime.addSecs, Bool.and_eq_true,
    decide_eq_true_eq, gt_iff_lt, e]
  rw [if_neg h]

/-! ## The heartbeat -/

/-- C1: at a heartbeat tick, in every state and at every time, the slot sends
one ping with payload PING and touches nothing else when the connected flag is
set and the last pong time plus 30 s is strictly later than now; in every
other case (flag not set, or now at or past the last pong time plus 30 s) it
sends no ping, closes the socket and opens it once with `webUrl`; since the
two results differ, the ping is sent exactly in the first case.  After
`connectServer` has built the URL, `webUrl` is that URL in every later state. -/
theorem heartbeat_tick_policy (w : MainWindow) (now : QDateTime) :
    ((w.connectedService = true ∧ now < w.webSocketLastPongTime + 30000) →
      w.onWebSocketTimerTimeout now =
        { w with effects := w.effects ++ [Effect.socketPing "PING"] }) ∧
    (¬ (w.connectedService = true ∧ now < w.webSocketLastPongTime + 30000) →
      w.onWebSocketTimerTimeout now =
        { w with effects := w.effects ++ [Effect.socketClose, Effect.socketOpen w.webUrl] }) ∧
    (w.onWebSocketTimerTimeout now =
        { w with effects := w.effects ++ [Effect.socketPing "PING"] } ↔
      (w.connectedService = true ∧ now < w.webSocketLastPongTime + 30000)) ∧
    (∀ (env : Env) (w0 : MainWindow) (es : List Event), env.getMacAddress ≠ "" →
      MainWindow.run env (w0.connectServer env) es = some w →
      w.webUrl = env.settingsUrl ++ "&uuid=ctips:" ++ env.getMacAddress) := by
  refine ⟨fun h => MainWindow.tick_ping w now h.1 h.2,
    fun h => MainWindow.tick_reconnect w now h, ?_, ?_⟩
  · constructor
    · intro h
      by_contra hc
      rw [MainWindow.tick_reconnect w now hc] at h
      have h2 := congrArg MainWindow.effects h
      simp at h2
    · intro h
      exact MainWindow.tick_ping w now h.1 h.2
  · intro env w0 es hmac hrun
    rw [MainWindow.run_webUrl env es _ _ hrun]
    have hlen : env.getMacAddress.length ≠ 0 := by
      intro h0
      exact hmac (eq_empty_of_length_zero _ h0)
    simp [MainWindow.connectServer, hlen]

/-- Witness of C1 on the connected example window: a tick 15 s after the last
pong pings, a tick exactly 30 s after it reconnects to the URL that
`connectServer` built. -/
theorem heartbeat_tick_policy_witness :
    connectedWindow.onWebSocketTimerTimeout 15000 =
        { connectedWindow with
          effects := connectedWindow.effects ++ [Effect.socketPing "PING"] } ∧
    connectedWindow.onWebSocketTimerTimeout 30000 =
        { connectedWindow with
          effects := connectedWindow.effects ++
            [Effect.socketClose, Effect.socketOpen connectedWindow.webUrl] } ∧
    connectedWindow.webUrl =
        exampleEnv.settingsUrl ++ "&uuid=ctips:" ++ exampleEnv.getMacAddress :=
  ⟨(heartbeat_tick_policy connectedWindow 15000).1 (by decide),
   (heartbeat_tick_policy connectedWindow 30000).2.1 (by decide),
   (heartbeat_tick_policy connectedWindow 0).2.2.2 exampleEnv exampleWindow
     [Event.connected 0] (by decide) (by rfl)⟩

/-- C6: when the machine address is the empty string, `connectServer` returns
the state it was given: no socket is created or opened, the heartbeat timer is
not started, and the connection fields keep their values. -/
theorem connectServer_without_address (env : Env) (w : MainWindow)
    (h : env.getMacAddress = "") : w.connectServer env = w := by
  simp [MainWindow.connectServer, h]

/-- Witness of C6 on the example window, on a machine without address. -/
theorem connectServer_without_address_witness :
    exampleWindow.connectServer noAddressEnv = exampleWindow :=
  connectServer_without_address noAddressEnv exampleWindow (by rfl)

/-- C7, against the claim: on the example window, whose connected flag is not
set, a pong at time 1000 changes the last pong time from 0 to 1000. -/
theorem onWebSocketPong_not_noop_offline :
    exampleWindow.connectedService = false ∧
    (exampleWindow.onWebSocketPong 3 "PING" 1000).webSocketLastPongTime = 1000 ∧
    exampleWindow.onWebSocketPong 3 "PING" 1000 ≠ exampleWindow := by
  decide

/-- C7, amended: in every state, connected or not, the pong slot sets the last
pong time to now and leaves every other field as it was. -/
theorem onWebSocketPong_sets_time (w : MainWindow) (elapsedTime : Nat) (payload : String)
    (now : QDateTime) :
    w.onWebSocketPong elapsedTime payload now = { w with webSocketLastPongTime := now } ∧
    (w.onWebSocketPong elapsedTime payload now).webSocketLastPongTime = now ∧
    (w.onWebSocketPong elapsedTime payload now).connectedService = w.connectedService :=
  ⟨rfl, rfl, rfl⟩

/-- C8, against the claim: on the example window, connected at time 0 and with
no pong received, the heartbeat tick 15 s later sends a ping and neither
closes nor opens the socket. -/
theorem first_tick_does_not_reconnect :
    ((exampleWindow.onWebSocketConnected 0).onWebSocketTimerTimeout 15000).effects =
      [Effect.socketPing "PING"] ∧
    Effect.socketClose ∉
      ((exampleWindow.onWebSocketConnected 0).onWebSocketTimerTimeout 15000).effects := by
  decide

/-- C8, amended: `onWebSocketConnected` at time `t0` records `t0` as the last
pong time, so after any events that are not socket connect, disconnect or pong
signals, a heartbeat tick at a time `t` earlier than `t0` plus 30 s (the first
tick, at most 15 s after the connect, is one) takes the ping branch: one ping
with payload PING, no close and no reopen. -/
theorem first_tick_after_connect_pings (env : Env) (w : MainWindow) (t0 t : QDateTime)
    (es : List Event) (w1 : MainWindow)
    (hes : ∀ e ∈ es, e.isLinkSignal = false)
    (hrun : MainWindow.run env (w.onWebSocketConnected t0) es = some w1)
    (ht : t < t0 + 30000) :
    w1.onWebSocketTimerTimeout t =
      { w1 with effects := w1.effects ++ [Effect.socketPing "PING"] } := by
  have h := MainWindow.run_link env es _ _ hes hrun
  apply MainWindow.tick_ping
  · rw [h.1]
    rfl
  · rw [h.2]
    exact ht

/-- Witness of the amended C8: connect at time 0, a message event in between,
tick at 15 s. -/
theorem first_tick_after_connect_pings_witness :
    ((exampleWindow.onWebSocketConnected 0).updateMessage exampleEnv "hi" 7000
        ).onWebSocketTimerTimeout 15000 =
      { (exampleWindow.onWebSocketConnected 0).updateMessage exampleEnv "hi" 7000 with
        effects :=
          ((exampleWindow.onWebSocketConnected 0).updateMessage exampleEnv "hi" 7000).effects
            ++ [Effect.socketPing "PING"] } :=
  first_tick_after_connect_pings exampleEnv exampleWindow 0 15000
    [Event.messageEvent "hi" 7000] _ (by decide) (by rfl) (by decide)

/-! ## The message handler -/

/-- A payload that fails one of the two tests leaves the state as it is. -/
theorem MainWindow.received_of_not_carries (env : Env) (w : MainWindow) (message : String)
    (now : QDateTime) (h : carriesNotice env message = false) :
    w.onWebSocketMessageReceived env message now = w := by
  unfold carriesNotice at h
  unfold MainWindow.onWebSocketMessageReceived
  by_cases hg : ((env.fromJson message).error ≠ ParseError.NoError
      || (env.fromJson message).doc.isEmpty || (env.fromJson message).doc.isNull) = true
  · simp only [hg, if_true]
  · have hg2 : ((env.fromJson message).error ≠ ParseError.NoError
        || (env.fromJson message).doc.isEmpty || (env.fromJson message).doc.isNull) = false := by
      simpa using hg
    simp only [hg2, Bool.not_false, Bool.true_and] at h
    simp only [hg2, Bool.false_eq_true, if_false, h]

/-- A payload that passes the two tests reaches `updateMessage` with the
string read from the member message of the member noticeData. -/
theorem MainWindow.received_of_carries (env : Env) (w : MainWindow) (message : String)
    (now : QDateTime) (h : carriesNotice env message = true) :
    w.onWebSocketMessageReceived env message now =
      w.updateMessage env
        ((QJsonObject.value
          ((QJsonObject.value (env.fromJson message).doc.object "noticeData").toObject)
          "message").toString) now := by
  unfold carriesNotice at h
  unfold MainWindow.onWebSocketMessageReceived
  simp only [Bool.and_eq_true, Bool.not_eq_true'] at h
  simp only [h.1, h.2, Bool.false_eq_true, if_false, if_true]

/-- An object with a member under `key` is not empty and contains `key`. -/
theorem QJsonObject.of_find_some (o : QJsonObject) (key : String) (v : QJsonValue)
    (h : QJsonObject.find o key = some v) :
    QJsonObject.contains o key = true ∧ List.isEmpty o = false := by
  constructor
  · simp [QJsonObject.contains, h]
  · cases o with
    | nil => simp [QJsonObject.find] at h
    | cons p rest => rfl

/-- A document that is an object containing `key`, read without error, passes
the two tests of the handler. -/
theorem carriesNotice_of_contains (env : Env) (message : String)
    (herr : (env.fromJson message).error = ParseError.NoError)
    (hc : QJsonObject.contains (env.fromJson message).doc.object "noticeData" = true) :
    carriesNotice env message = true := by
  unfold carriesNotice
  have hne : (env.fromJson message).doc.isEmpty = false ∧
      (env.fromJson message).doc.isNull = false := by
    cases hd : (env.fromJson message).doc with
    | null => rw [hd] at hc; simp [QJsonDocument.object, QJsonObject.contains, QJsonObject.find] at hc
    | ofArray a =>
      rw [hd] at hc; simp [QJsonDocument.object, QJsonObject.contains, QJsonObject.find] at hc
    | ofObject o =>
      rw [hd] at hc
      constructor
      · cases o with
        | nil => simp [QJsonDocument.object, QJsonObject.contains, QJsonObject.find] at hc
        | cons p rest => rfl
      · rfl
  simp [herr, hne.1, hne.2, hc]

/-- C2: a payload that does not parse (error code other than NoError), or
whose document is empty or null, or whose document is not an object that
contains the key noticeData, leaves the whole state as it was: the log, the
status line and the blink timer are unchanged and no bell or balloon call is
added to the effects. -/
theorem onWebSocketMessageReceived_ignores (env : Env) (w : MainWindow) (message : String)
    (now : QDateTime)
    (h : (env.fromJson message).error ≠ ParseError.NoError ∨
      (env.fromJson message).doc.isEmpty = true ∨
      (env.fromJson message).doc.isNull = true ∨
      (∀ o, (env.fromJson message).doc = QJsonDocument.ofObject o →
        QJsonObject.contains o "noticeData" = false)) :
    w.onWebSocketMessageReceived env message now = w := by
  apply MainWindow.received_of_not_carries
  unfold carriesNotice
  rcases h with h | h | h | h
  · simp [h]
  · simp [h]
  · simp [h]
  · cases hd : (env.fromJson message).doc with
    | null => simp [hd, QJsonDocument.isEmpty]
    | ofArray a => simp [hd, QJsonDocument.object, QJsonObject.contains, QJsonObject.find]
    | ofObject o => simp [hd, QJsonDocument.object, h o hd]

/-- Witness of C2 with the reference reader, on a window that already holds a
record: a text that is not JSON, an empty object, and an array are ignored. -/
theorem onWebSocketMessageReceived_ignores_witness :
    loggedWindow.onWebSocketMessageReceived exampleEnv "server update" 2000 = loggedWindow ∧
    loggedWindow.onWebSocketMessageReceived exampleEnv "\x7b\x7d" 2000 = loggedWindow ∧
    loggedWindow.onWebSocketMessageReceived exampleEnv "[\"noticeData\"]" 2000 = loggedWindow :=
  ⟨onWebSocketMessageReceived_ignores exampleEnv loggedWindow "server update" 2000
     (Or.inl (by decide)),
   onWebSocketMessageReceived_ignores exampleEnv loggedWindow "\x7b\x7d" 2000
     (Or.inr (Or.inl (by rfl))),
   onWebSocketMessageReceived_ignores exampleEnv loggedWindow "[\"noticeData\"]" 2000
     (Or.inr (Or.inr (Or.inr (fun o ho => by
       have hd : (exampleEnv.fromJson "[\"noticeData\"]").doc =
           QJsonDocument.ofArray [QJsonValue.string "noticeData"] := by rfl
       rw [hd] at ho
       cases ho))))⟩

/-- C3: when the payload parses without error to an object whose member
noticeData is an object whose member message is the string `m`, the handler
does what `updateMessage` does with `m`; the log afterwards is the record with
text `m` followed by the prior log: one record more, at row 0, with text
`m`. -/
theorem onWebSocketMessageReceived_notice (env : Env) (w : MainWindow) (message : String)
    (now : QDateTime) (o nd : QJsonObject) (m : String)
    (herr : (env.fromJson message).error = ParseError.NoError)
    (hdoc : (env.fromJson message).doc = QJsonDocument.ofObject o)
    (hnd : QJsonObject.value o "noticeData" = QJsonValue.object nd)
    (hm : QJsonObject.value nd "message" = QJsonValue.string m) :
    w.onWebSocketMessageReceived env message now = w.updateMessage env m now ∧
    (w.onWebSocketMessageReceived env message now).listWidget.items =
      { text := m, sizeHint := (470, 25), toolTip := m, font := ("Monaco", 14) } ::
        w.listWidget.items ∧
    (w.onWebSocketMessageReceived env message now).logTexts = m :: w.logTexts ∧
    (w.onWebSocketMessageReceived env message now).listWidget.count =
      w.listWidget.count + 1 := by
  have hfind : QJsonObject.find o "noticeData" = some (QJsonValue.object nd) := by
    unfold QJsonObject.value at hnd
    cases hf : QJsonObject.find o "noticeData" with
    | none => rw [hf] at hnd; cases hnd
    | some v => rw [hf] at hnd; simp only at hnd; rw [hnd]
  have hc : carriesNotice env message = true := by
    apply carriesNotice_of_contains env message herr
    rw [hdoc]
    exact (QJsonObject.of_find_some o _ _ hfind).1
  have hupd : w.onWebSocketMessageReceived env message now = w.updateMessage env m now := by
    rw [MainWindow.received_of_carries env w message now hc, hdoc]
    simp only [QJsonDocument.object, hnd, QJsonValue.toObject, hm, QJsonValue.toString]
  refine ⟨hupd, ?_, ?_, ?_⟩ <;> rw [hupd] <;>
    simp [MainWindow.updateMessage, QListWidget.insertItem, QListWidget.setCurrentRow,
      MainWindow.logTexts, QListWidget.count]

/-- Witness of C3 with the reference reader: the payload of the scenario,
received by a window whose log holds "first", puts "server update" at row 0. -/
theorem onWebSocketMessageReceived_notice_witness :
    (loggedWindow.onWebSocketMessageReceived exampleEnv noticePayload 2000).logTexts =
      "server update" :: loggedWindow.logTexts :=
  (onWebSocketMessageReceived_notice exampleEnv loggedWindow noticePayload 2000
    [("noticeData", QJsonValue.object [("message", QJsonValue.string "server update")])]
    [("message", QJsonValue.string "server update")] "server update"
    (by rfl) (by rfl) (by rfl) (by rfl)).2.2.1

/-- C4, against the claim: with the reference reader, the payloads with
noticeData equal to 5 and with noticeData an object without message are well
formed, and each makes the handler put a record with empty text into the log
of the example window and ring the bell. -/
theorem onWebSocketMessageReceived_empty_record :
    (Json.fromJson "\x7b\"noticeData\":5\x7d").error = ParseError.NoError ∧
    (exampleWindow.onWebSocketMessageReceived exampleEnv
        "\x7b\"noticeData\":5\x7d" 2000).logTexts = [""] ∧
    Effect.bellPlay ∈ (exampleWindow.onWebSocketMessageReceived exampleEnv
        "\x7b\"noticeData\":5\x7d" 2000).effects ∧
    (Json.fromJson "\x7b\"noticeData\":\x7b\"text\":\"hi\"\x7d\x7d").error =
      ParseError.NoError ∧
    (exampleWindow.onWebSocketMessageReceived exampleEnv
        "\x7b\"noticeData\":\x7b\"text\":\"hi\"\x7d\x7d" 2000).logTexts = [""] ∧
    Effect.bellPlay ∈ (exampleWindow.onWebSocketMessageReceived exampleEnv
        "\x7b\"noticeData\":\x7b\"text\":\"hi\"\x7d\x7d" 2000).effects := by
  decide

/-- C4, amended: for a payload that parses without error, the handler ignores
it (state unchanged) when the top level is not an object containing the key
noticeData; when the top-level object contains noticeData but that member is
not an object holding a string message, the handler does not ignore the
payload: it calls `updateMessage` with the empty string, which puts a record
with empty text at row 0, rings the bell and starts the blink timer. -/
theorem onWebSocketMessageReceived_other_shapes (env : Env) (w : MainWindow)
    (message : String) (now : QDateTime)
    (herr : (env.fromJson message).error = ParseError.NoError) :
    (QJsonObject.contains (env.fromJson message).doc.object "noticeData" = false →
      w.onWebSocketMessageReceived env message now = w) ∧
    (QJsonObject.contains (env.fromJson message).doc.object "noticeData" = true →
      (¬ ∃ nd m, QJsonObject.value (env.fromJson message).doc.object "noticeData" =
            QJsonValue.object nd ∧
          QJsonObject.value nd "message" = QJsonValue.string m) →
      w.onWebSocketMessageReceived env message now = w.updateMessage env "" now ∧
      (w.onWebSocketMessageReceived env message now).logTexts = "" :: w.logTexts ∧
      Effect.bellPlay ∈ (w.onWebSocketMessageReceived env message now).effects ∧
      (w.onWebSocketMessageReceived env message now).messageTipTimer.active = true) := by
  constructor
  · intro hc
    apply MainWindow.received_of_not_carries
    unfold carriesNotice
    simp [hc]
  · intro hc hno
    have hcn := carriesNotice_of_contains env message herr hc
    have hupd : w.onWebSocketMessageReceived env message now =
        w.updateMessage env "" now := by
      rw [MainWindow.received_of_carries env w message now hcn]
      congr 1
      cases hv : QJsonObject.value (env.fromJson message).doc.object "noticeData" with
      | object nd =>
        cases hmv : QJsonObject.value nd "message" with
        | string m => exact absurd ⟨nd, m, hv, hmv⟩ hno
        | _ => simp [QJsonValue.toObject, hmv, QJsonValue.toString]
      | _ => simp [QJsonValue.toObject, QJsonObject.value, QJsonObject.find,
          QJsonValue.toString]
    refine ⟨hupd, ?_, ?_, ?_⟩ <;> rw [hupd] <;>
      simp [MainWindow.updateMessage, QListWidget.insertItem, QListWidget.setCurrentRow,
        MainWindow.logTexts, QTimer.start]

/-- Witness of the amended C4 with the reference reader: an object without
noticeData is ignored; noticeData equal to 5 gives a record with empty
text. -/
theorem onWebSocketMessageReceived_other_shapes_witness :
    loggedWindow.onWebSocketMessageReceived exampleEnv "\x7b\"other\":1\x7d" 2000 =
      loggedWindow ∧
    (loggedWindow.onWebSocketMessageReceived exampleEnv "\x7b\"noticeData\":5\x7d" 2000
      ).logTexts = "" :: loggedWindow.logTexts :=
  ⟨(onWebSocketMessageReceived_other_shapes exampleEnv loggedWindow
      "\x7b\"other\":1\x7d" 2000 (by rfl)).1 (by rfl),
   ((onWebSocketMessageReceived_other_shapes exampleEnv loggedWindow
      "\x7b\"noticeData\":5\x7d" 2000 (by rfl)).2 (by rfl) (by
        rintro ⟨nd, m, hv, _⟩
        have h5 : QJsonObject.value (exampleEnv.fromJson "\x7b\"noticeData\":5\x7d").doc.object
            "noticeData" = QJsonValue.double "5" := by rfl
        rw [h5] at hv
        cases hv)).2.1⟩

/-! ## The blink indicator -/

/-- The state left by `resetTrayIcon` is quiescent. -/
theorem MainWindow.resetTrayIcon_isQuiescent (w : MainWindow) : w.resetTrayIcon.Quiescent :=
  ⟨rfl, rfl, rfl⟩

/-- From a quiescent state, a deliverable event that carries no notification
is not the blink tick and leaves the state quiescent. -/
theorem MainWindow.handle_quiescent (env : Env) (w : MainWindow) (e : Event)
    (hq : w.Quiescent) (hn : e.notifies env = false) (hen : w.enabled e = true) :
    e.isBlinkTick = false ∧ (w.handle env e).Quiescent := by
  obtain ⟨h1, h2, h3⟩ := hq
  cases e with
  | tipTimerTimeout =>
    simp only [MainWindow.enabled] at hen
    rw [h3] at hen
    cases hen
  | messageEvent message now => simp [Event.notifies] at hn
  | textMessageReceived message now =>
    simp only [Event.notifies] at hn
    refine ⟨rfl, ?_⟩
    simp only [MainWindow.handle]
    rw [MainWindow.received_of_not_carries env w message now hn]
    exact ⟨h1, h2, h3⟩
  | messageClicked screens trayX primaryWidth =>
    refine ⟨rfl, ?_⟩
    simp only [MainWindow.handle, MainWindow.messageClicked, MainWindow.Quiescent]
    repeat' split
    all_goals exact ⟨rfl, rfl, rfl⟩
  | iconActivated cursorPoint isActiveWindow =>
    refine ⟨rfl, ?_⟩
    simp only [MainWindow.handle, MainWindow.iconActivated, MainWindow.Quiescent]
    repeat' split
    all_goals exact ⟨rfl, rfl, rfl⟩
  | deleteMenu =>
    refine ⟨rfl, ?_⟩
    simp only [MainWindow.handle, MainWindow.deleteMenuSelected, MainWindow.Quiescent]
    repeat' split
    all_goals exact ⟨h1, h2, h3⟩
  | clearMenu result =>
    refine ⟨rfl, ?_⟩
    simp only [MainWindow.handle, MainWindow.clearMenuSelected, MainWindow.Quiescent]
    repeat' split
    all_goals exact ⟨h1, h2, h3⟩
  | pingTimerTimeout now =>
    refine ⟨rfl, ?_⟩
    simp only [MainWindow.handle, MainWindow.onWebSocketTimerTimeout, MainWindow.Quiescent]
    repeat' split
    all_goals exact ⟨h1, h2, h3⟩
  | connected now => exact ⟨rfl, h1, h2, h3⟩
  | disconnected => exact ⟨rfl, h1, h2, h3⟩
  | pong elapsedTime payload now => exact ⟨rfl, h1, h2, h3⟩
  | socketError => exact ⟨rfl, h1, h2, h3⟩
  | stateChanged => exact ⟨rfl, h1, h2, h3⟩
  | minBtnClicked => exact ⟨rfl, h1, h2, h3⟩
  | rowSelected row => exact ⟨rfl, h1, h2, h3⟩

/-- From a quiescent state, a run without notification contains no blink tick
and ends quiescent. -/
theorem MainWindow.run_quiescent (env : Env) (es : List Event) :
    ∀ w w1 : MainWindow, w.Quiescent → (∀ e ∈ es, e.notifies env = false) →
      MainWindow.run env w es = some w1 →
      (∀ e ∈ es, e.isBlinkTick = false) ∧ w1.Quiescent := by
  induction es with
  | nil =>
    intro w w1 hq _ h
    simp only [MainWindow.run, Option.some.injEq] at h
    rw [← h]
    exact ⟨fun e he => absurd he (List.not_mem_nil e), hq⟩
  | cons e es ih =>
    intro w w1 hq hes h
    simp only [MainWindow.run] at h
    split at h
    · rename_i hen
      have h1 := MainWindow.handle_quiescent env w e hq
        (hes e (List.mem_cons_self _ _)) hen
      have h2 := ih _ _ h1.2 (fun x hx => hes x (List.mem_cons_of_mem _ hx)) h
      refine ⟨?_, h2.2⟩
      intro x hx
      rcases List.mem_cons.mp hx with hx | hx
      · rw [hx]
        exact h1.1
      · exact h2.1 x hx
    · cases h

/-- C5: in every state, `resetTrayIcon` leaves the flag `trayIconSwitched`
cleared, the tray icon blue and the blink timer stopped; and for every
sequence of events delivered afterwards in which no event calls
`updateMessage`, no event of the sequence is the blink tick, and after every
initial part of the sequence the icon is blue, the flag cleared and the timer
stopped. -/
theorem resetTrayIcon_quiescent (env : Env) (w : MainWindow) :
    w.resetTrayIcon.trayIconSwitched = false ∧
    w.resetTrayIcon.trayIcon.icon = Icon.appBlueIcon ∧
    w.resetTrayIcon.messageTipTimer.active = false ∧
    ∀ (es1 es2 : List Event) (w2 : MainWindow),
      (∀ e ∈ es1 ++ es2, e.notifies env = false) →
      MainWindow.run env w.resetTrayIcon (es1 ++ es2) = some w2 →
      (∀ e ∈ es1 ++ es2, e.isBlinkTick = false) ∧
      ∃ w1, MainWindow.run env w.resetTrayIcon es1 = some w1 ∧
        w1.trayIcon.icon = Icon.appBlueIcon ∧
        w1.trayIconSwitched = false ∧
        w1.messageTipTimer.active = false := by
  refine ⟨rfl, rfl, rfl, ?_⟩
  intro es1 es2 w2 hes hrun
  have h := MainWindow.run_quiescent env _ _ _ (MainWindow.resetTrayIcon_isQuiescent w) hes hrun
  obtain ⟨w1, h1, _⟩ := MainWindow.run_append env es1 es2 _ _ hrun
  have hq := MainWindow.run_quiescent env es1 _ _ (MainWindow.resetTrayIcon_isQuiescent w)
    (fun e he => hes e (List.mem_append_left _ he)) h1
  exact ⟨h.1, w1, h1, hq.2.2.1, hq.2.1, hq.2.2.2⟩

/-- Witness of C5: the window blinks after a notification (icon red after one
tick); after `resetTrayIcon`, the run of a pong, an ignored payload, a
deletion and a disconnect contains no blink tick, and after its first two
events the icon is blue and the timer stopped. -/
theorem resetTrayIcon_quiescent_witness :
    loggedWindow.onMessageTipTimerTimeout.trayIcon.icon = Icon.appRedIcon ∧
    ((∀ e ∈ [Event.pong 3 "PING" 2000, Event.textMessageReceived "[]" 3000] ++
        [Event.deleteMenu, Event.disconnected], e.isBlinkTick = false) ∧
      ∃ w1, MainWindow.run exampleEnv loggedWindow.onMessageTipTimerTimeout.resetTrayIcon
          [Event.pong 3 "PING" 2000, Event.textMessageReceived "[]" 3000] = some w1 ∧
        w1.trayIcon.icon = Icon.appBlueIcon ∧
        w1.trayIconSwitched = false ∧
        w1.messageTipTimer.active = false) :=
  ⟨by decide,
   (resetTrayIcon_quiescent exampleEnv loggedWindow.onMessageTipTimerTimeout).2.2.2
      [Event.pong 3 "PING" 2000, Event.textMessageReceived "[]" 3000]
      [Event.deleteMenu, Event.disconnected] _
      (by decide) (by rfl)⟩

/-! ## The notification log -/

/-- After `updateMessage` the log is the new record followed by the old log. -/
theorem MainWindow.updateMessage_items (env : Env) (w : MainWindow) (message : String)
    (now : QDateTime) :
    (w.updateMessage env message now).listWidget.items =
      { text := message, sizeHint := (470, 25), toolTip := message, font := ("Monaco", 14) } ::
        w.listWidget.items := by
  simp [MainWindow.updateMessage, QListWidget.insertItem, QListWidget.setCurrentRow]

/-- A current item exists exactly at a current row inside the list. -/
theorem QListWidget.currentItem_some (l : QListWidget) (row : Nat) (item : QListWidgetItem)
    (hr : l.currentRow = some row) (hi : l.currentItem = some item) :
    row < l.items.length := by
  unfold QListWidget.currentItem at hi
  rw [hr] at hi
  simp only at hi
  exact (List.get?_eq_some.mp hi).1

/-- With a current row inside the list, `deleteMenuSelected` erases that row
and nothing else. -/
theorem MainWindow.deleteMenuSelected_items (w : MainWindow) (row : Nat)
    (hr : w.listWidget.currentRow = some row) (hlt : row < w.listWidget.items.length) :
    w.deleteMenuSelected.listWidget.items = w.listWidget.items.eraseIdx row := by
  have hi : w.listWidget.currentItem = some (w.listWidget.items.get ⟨row, hlt⟩) := by
    unfold QListWidget.currentItem
    rw [hr]
    exact List.get?_eq_get hlt
  unfold MainWindow.deleteMenuSelected
  rw [hr, hi]
  simp only
  split <;> rfl

/-- Without a current item, `deleteMenuSelected` changes nothing. -/
theorem MainWindow.deleteMenuSelected_none (w : MainWindow)
    (hi : w.listWidget.currentItem = none) : w.deleteMenuSelected = w := by
  unfold MainWindow.deleteMenuSelected
  rw [hi]
  split
  · rename_i h1 h2
    cases h2
  · rfl

/-- The log after `deleteMenuSelected` is a sublist of the log before. -/
theorem MainWindow.deleteMenuSelected_sublist (w : MainWindow) :
    List.Sublist w.deleteMenuSelected.logTexts w.logTexts := by
  cases hi : w.listWidget.currentItem with
  | none =>
    rw [MainWindow.deleteMenuSelected_none w hi]
  | some item =>
    cases hr : w.listWidget.currentRow with
    | none =>
      unfold QListWidget.currentItem at hi
      rw [hr] at hi
      cases hi
    | some row =>
      have hlt := QListWidget.currentItem_some w.listWidget row item hr hi
      unfold MainWindow.logTexts
      rw [MainWindow.deleteMenuSelected_items w row hr hlt]
      exact List.Sublist.map _ (List.eraseIdx_sublist _ _)

/-- The log after `clearMenuSelected` is a sublist of the log before. -/
theorem MainWindow.clearMenuSelected_sublist (w : MainWindow) (result : StandardButton) :
    List.Sublist (w.clearMenuSelected result).logTexts w.logTexts := by
  unfold MainWindow.clearMenuSelected
  repeat' split
  · exact List.Sublist.refl _
  · exact List.Sublist.refl _
  · simp [MainWindow.logTexts, QListWidget.clear]

/-- The log after any operations is a sublist of the texts they received,
newest first, followed by the log before. -/
theorem LogOp.applyAll_sublist (env : Env) (ops : List LogOp) :
    ∀ w : MainWindow, List.Sublist (LogOp.applyAll env w ops).logTexts
      ((LogOp.received ops).reverse ++ w.logTexts) := by
  induction ops with
  | nil =>
    intro w
    simp [LogOp.applyAll, LogOp.received]
  | cons op ops ih =>
    intro w
    have h := ih (LogOp.apply env w op)
    have hfold : LogOp.applyAll env w (op :: ops) =
        LogOp.applyAll env (LogOp.apply env w op) ops := rfl
    rw [hfold]
    cases op with
    | receive message now =>
      have ht : (LogOp.apply env w (LogOp.receive message now)).logTexts =
          message :: w.logTexts := by
        simp [LogOp.apply, MainWindow.logTexts, MainWindow.updateMessage_items]
      rw [ht] at h
      simpa [LogOp.received] using h
    | deleteCurrent =>
      refine h.trans ?_
      simp only [LogOp.received]
      exact List.Sublist.append (List.Sublist.refl _) (MainWindow.deleteMenuSelected_sublist w)
    | clear =>
      refine h.trans ?_
      simp only [LogOp.received]
      exact List.Sublist.append (List.Sublist.refl _)
        (MainWindow.clearMenuSelected_sublist w StandardButton.Yes)
    | select row =>
      exact h

/-- C9: starting from an empty log, after every sequence of receive,
delete-current and confirmed clear operations (and of changes of the current
row), the texts of the log, top row first, form a sublist of the received
texts taken newest first: the records that remain stand in the reverse of
the order of receipt.  A receive puts its record at row 0 before the others,
and a deletion with current row `row` erases exactly that row, the other
records keeping their order. -/
theorem log_newest_first (env : Env) (w : MainWindow) (ops : List LogOp)
    (hempty : w.listWidget.items = []) :
    List.Sublist (LogOp.applyAll env w ops).logTexts (LogOp.received ops).reverse ∧
    (∀ (v : MainWindow) (message : String) (now : QDateTime),
      (v.updateMessage env message now).logTexts = message :: v.logTexts) ∧
    (∀ (v : MainWindow) (row : Nat), v.listWidget.currentRow = some row →
      row < v.listWidget.items.length →
      v.deleteMenuSelected.listWidget.items = v.listWidget.items.eraseIdx row) := by
  refine ⟨?_, ?_, ?_⟩
  · have h := LogOp.applyAll_sublist env ops w
    have hw : w.logTexts = [] := by simp [MainWindow.logTexts, hempty]
    rw [hw, List.append_nil] at h
    exact h
  · intro v message now
    simp [MainWindow.logTexts, MainWindow.updateMessage_items]
  · intro v row hr hlt
    exact MainWindow.deleteMenuSelected_items v row hr hlt

/-- Witness of C9: a, b, c are received in this order, then the middle row is
made current and deleted: the log reads c, a. -/
theorem log_newest_first_witness :
    List.Sublist
      (LogOp.applyAll exampleEnv exampleWindow
        [LogOp.receive "a" 1000, LogOp.receive "b" 2000, LogOp.receive "c" 3000,
         LogOp.select 1, LogOp.deleteCurrent]).logTexts
      (LogOp.received
        [LogOp.receive "a" 1000, LogOp.receive "b" 2000, LogOp.receive "c" 3000,
         LogOp.select 1, LogOp.deleteCurrent]).reverse ∧
    (LogOp.applyAll exampleEnv exampleWindow
        [LogOp.receive "a" 1000, LogOp.receive "b" 2000, LogOp.receive "c" 3000,
         LogOp.select 1, LogOp.deleteCurrent]).logTexts = ["c", "a"] :=
  ⟨(log_newest_first exampleEnv exampleWindow
      [LogOp.receive "a" 1000, LogOp.receive "b" 2000, LogOp.receive "c" 3000,
       LogOp.select 1, LogOp.deleteCurrent] (by rfl)).1, by decide⟩

/-- C10: when the log holds one entry and it is the current item,
`deleteMenuSelected` leaves the log empty and sets the status line to the
empty string; when the log holds more than one entry before the call, the
status line keeps its text. -/
theorem deleteMenuSelected_status_line (w : MainWindow) :
    (w.listWidget.items.length = 1 → w.listWidget.currentRow = some 0 →
      w.deleteMenuSelected.listWidget.items = [] ∧ w.deleteMenuSelected.infoLabel = "") ∧
    (1 < w.listWidget.items.length → w.deleteMenuSelected.infoLabel = w.infoLabel) := by
  constructor
  · intro hlen hr
    obtain ⟨x, hx⟩ := List.length_eq_one.mp hlen
    have hi : w.listWidget.currentItem = some x := by
      simp [QListWidget.currentItem, hr, hx]
    unfold MainWindow.deleteMenuSelected
    rw [hr, hi]
    simp [QListWidget.deleteItem, QListWidget.count, hx]
  · intro hlen
    cases hi : w.listWidget.currentItem with
    | none => rw [MainWindow.deleteMenuSelected_none w hi]
    | some item =>
      cases hr : w.listWidget.currentRow with
      | none =>
        unfold QListWidget.currentItem at hi
        rw [hr] at hi
        cases hi
      | some row =>
        have hlt := QListWidget.currentItem_some w.listWidget row item hr hi
        have hcount : (w.listWidget.deleteItem row).count ≠ 0 := by
          simp only [QListWidget.count, QListWidget.deleteItem]
          rw [List.length_eraseIdx_of_lt hlt]
          omega
        unfold MainWindow.deleteMenuSelected
        rw [hr, hi]
        simp only [hcount, if_false]

/-- Witness of C10: deleting the only record of the logged window empties the
log and the status line; deleting one of two records keeps the status line. -/
theorem deleteMenuSelected_status_line_witness :
    (loggedWindow.deleteMenuSelected.listWidget.items = [] ∧
      loggedWindow.deleteMenuSelected.infoLabel = "") ∧
    (loggedWindow.updateMessage exampleEnv "second" 2000).deleteMenuSelected.infoLabel =
      (loggedWindow.updateMessage exampleEnv "second" 2000).infoLabel :=
  ⟨(deleteMenuSelected_status_line loggedWindow).1 (by decide) (by decide),
   (deleteMenuSelected_status_line (loggedWindow.updateMessage exampleEnv "second" 2000)).2
     (by decide)⟩

end CTips
